import Mathlib

/-!
Verification of the RLPx disconnect-reason codec
(crates/net/eth-wire/src/disconnect.rs).

The enumeration, the fallible byte-to-variant conversion, the encoder and
the tolerant decoder are embedded below as executable Lean functions.
Bytes are modelled as natural numbers; every byte value appearing in the
source is below 256 and no arithmetic overflows.
-/

namespace Disconnect

/-- RLPx disconnect reason, a closed enumeration of 13 variants, each with a
fixed numeric discriminant given by `code` below. -/
inductive DisconnectReason where
  | DisconnectRequested
  | TcpSubsystemError
  | ProtocolBreach
  | UselessPeer
  | TooManyPeers
  | AlreadyConnected
  | IncompatibleP2PProtocolVersion
  | NullNodeIdentity
  | ClientQuitting
  | UnexpectedHandshakeIdentity
  | ConnectedToSelf
  | PingTimeout
  | SubprotocolSpecific
  deriving DecidableEq

/-- The fixed numeric code of each variant (the enum discriminants of the
source, `*self as u8`). -/
def code : DisconnectReason → Nat
  | .DisconnectRequested => 0x00
  | .TcpSubsystemError => 0x01
  | .ProtocolBreach => 0x02
  | .UselessPeer => 0x03
  | .TooManyPeers => 0x04
  | .AlreadyConnected => 0x05
  | .IncompatibleP2PProtocolVersion => 0x06
  | .NullNodeIdentity => 0x07
  | .ClientQuitting => 0x08
  | .UnexpectedHandshakeIdentity => 0x09
  | .ConnectedToSelf => 0x0a
  | .PingTimeout => 0x0b
  | .SubprotocolSpecific => 0x10

/-- Error value wrapping the single raw byte that could not be resolved to
any known variant (struct `UnknownDisconnectReason(u8)`). -/
structure UnknownDisconnectReason where
  value : Nat
  deriving DecidableEq

/-- The fallible byte-to-variant conversion (`TryFrom<u8> for
DisconnectReason`): an exhaustive match on the 13 assigned codes, every
other byte giving `UnknownDisconnectReason`. -/
def tryFrom (value : Nat) : Except UnknownDisconnectReason DisconnectReason :=
  match value with
  | 0x00 => Except.ok DisconnectReason.DisconnectRequested
  | 0x01 => Except.ok DisconnectReason.TcpSubsystemError
  | 0x02 => Except.ok DisconnectReason.ProtocolBreach
  | 0x03 => Except.ok DisconnectReason.UselessPeer
  | 0x04 => Except.ok DisconnectReason.TooManyPeers
  | 0x05 => Except.ok DisconnectReason.AlreadyConnected
  | 0x06 => Except.ok DisconnectReason.IncompatibleP2PProtocolVersion
  | 0x07 => Except.ok DisconnectReason.NullNodeIdentity
  | 0x08 => Except.ok DisconnectReason.ClientQuitting
  | 0x09 => Except.ok DisconnectReason.UnexpectedHandshakeIdentity
  | 0x0a => Except.ok DisconnectReason.ConnectedToSelf
  | 0x0b => Except.ok DisconnectReason.PingTimeout
  | 0x10 => Except.ok DisconnectReason.SubprotocolSpecific
  | v => Except.error ⟨v⟩

/-- Decoding-error taxonomy of the outer RLP library (`DecodeError` of
reth_rlp), restricted to the constructors relevant here: `InputTooShort`,
a static custom message, and further variants of the library listed so
that the error type is not artificially collapsed to the three values the
decoder actually produces. -/
inductive DecodeError where
  | InputTooShort
  | Overflow
  | UnexpectedList
  | NonCanonicalSingleByte
  | Custom (msg : String)
  deriving DecidableEq

/-- Modelled from the spec: the general-purpose single-byte decoding rule
of the RLP library (`u8::decode` on a one-byte buffer, reth_rlp being
outside the provided sources): a byte value of 0x80 decodes to the
integer 0; other values decode to themselves. -/
def rlpDecodeU8 (b : Nat) : Nat :=
  if b = 0x80 then 0 else b

/-- Modelled from the spec: the RLP single-byte encoding used inside the
encoded one-element list (reth_rlp being outside the provided sources):
zero encodes as 0x80 and other byte values below 0x80 encode as
themselves. All 13 reason codes lie below 0x80. -/
def rlpEncodeByte (b : Nat) : Nat :=
  if b = 0 then 0x80 else b

/-- Modelled from the spec: the RLP encoding of a one-element byte list
(`vec![*self as u8].encode(out)`, reth_rlp being outside the provided
sources): the list-of-one-byte marker 0xc1 followed by the single-byte
encoding of the element. -/
def rlpEncodeVec1 (b : Nat) : List Nat :=
  [0xc1, rlpEncodeByte b]

/-- The encoder (`Encodable::encode for DisconnectReason`): the two header
bytes 0x02 and 0x04 followed by the RLP encoding of the one-element list
holding the reason code. -/
def encode (r : DisconnectReason) : List Nat :=
  [0x02, 0x04] ++ rlpEncodeVec1 (code r)

/-- The length-reporting function (`Encodable::length for
DisconnectReason`): the constant 4. -/
def length (_ : DisconnectReason) : Nat := 4

/-- Resolution of an extracted candidate byte through `tryFrom`, mapping a
failed conversion to the custom unknown-reason decoding error
(`map_err(|_| DecodeError::Custom("unknown disconnect reason"))`). -/
def resolve (b : Nat) : Except DecodeError DisconnectReason :=
  match tryFrom b with
  | Except.ok r => Except.ok r
  | Except.error _ => Except.error (DecodeError.Custom "unknown disconnect reason")

/-- The tolerant decoder (`Decodable::decode for DisconnectReason`).
An empty buffer fails with `InputTooShort`; a one-byte buffer is decoded
by the single-byte rule; a buffer of length 2 to 4 is advanced to its
final byte, a literal 0x00 resolving directly to the code of
`DisconnectRequested` and any other final byte going through the
single-byte rule; a longer buffer fails with the custom invalid-length
error. The extracted byte is then resolved through `tryFrom`. -/
def decode (buf : List Nat) : Except DecodeError DisconnectReason :=
  if buf.isEmpty then
    Except.error DecodeError.InputTooShort
  else if buf.length = 1 then
    resolve (rlpDecodeU8 (buf.headD 0))
  else if buf.length ≤ 4 then
    if buf.getLastD 0 = 0x00 then
      resolve (code DisconnectReason.DisconnectRequested)
    else
      resolve (rlpDecodeU8 (buf.getLastD 0))
  else
    Except.error (DecodeError.Custom "invalid disconnect reason length")

/-- Helper: on a buffer of length 2 to 4 the decoder depends only on the
final byte of the buffer. -/
theorem decode_mid_eq (buf : List Nat) (h2 : 2 ≤ buf.length) (h4 : buf.length ≤ 4) :
    decode buf =
      (if buf.getLastD 0 = 0x00 then
        resolve (code DisconnectReason.DisconnectRequested)
      else
        resolve (rlpDecodeU8 (buf.getLastD 0))) := by
  have hne : buf.isEmpty = false := by
    cases buf with
    | nil => simp at h2
    | cons a l => rfl
  have h1 : ¬ buf.length = 1 := by omega
  simp only [decode, hne, Bool.false_eq_true, if_false, h1, if_neg h1, if_pos h4]

/-- Helper: when `tryFrom` fails, the error wraps exactly the input byte. -/
theorem tryFrom_error_value (v : Nat) (e : UnknownDisconnectReason)
    (h : tryFrom v = Except.error e) : e = ⟨v⟩ := by
  unfold tryFrom at h
  split at h <;> simp_all

/-- Helper: on every unassigned code, `tryFrom` returns the error wrapping
that code. -/
theorem tryFrom_unassigned (b : Nat) (h12 : 12 ≤ b) (h16 : b ≠ 16) :
    tryFrom b = Except.error ⟨b⟩ := by
  unfold tryFrom
  split <;> first | rfl | omega

/-- Helper: `resolve` returns either a reason or the constant custom
unknown-reason error. -/
theorem resolve_cases (b : Nat) :
    (∃ r, resolve b = Except.ok r) ∨
    resolve b = Except.error (DecodeError.Custom "unknown disconnect reason") := by
  unfold resolve
  cases h : tryFrom b with
  | ok r => exact Or.inl ⟨r, rfl⟩
  | error e => exact Or.inr rfl

end Disconnect

namespace Disconnect

/-- Claim C1: for every one of the 13 defined disconnect reasons, decoding
the 4-byte output of the encoder yields that same reason. -/
theorem claim1_roundtrip (r : DisconnectReason) : decode (encode r) = Except.ok r := by
  cases r <;> rfl

/-- Claim C2, counterexample: the encoder output for `DisconnectRequested`
is not `[0x02, 0x04, 0xc1, code]` with code 0x00 in the final position;
the final byte is 0x80, the RLP encoding of zero. -/
theorem claim2_counterexample :
    encode DisconnectReason.DisconnectRequested ≠
      [0x02, 0x04, 0xc1, code DisconnectReason.DisconnectRequested] ∧
    encode DisconnectReason.DisconnectRequested = [0x02, 0x04, 0xc1, 0x80] := by
  constructor
  · decide
  · rfl

/-- Claim C2, amended: for every variant the encoder output is exactly
`[0x02, 0x04, 0xc1, rlpEncodeByte (code r)]`, the final byte being the RLP
single-byte encoding of the code: the code itself for nonzero codes and
0x80 for `DisconnectRequested` whose code is zero. -/
theorem claim2_amended (r : DisconnectReason) :
    encode r = [0x02, 0x04, 0xc1, rlpEncodeByte (code r)] ∧
    (code r ≠ 0 → encode r = [0x02, 0x04, 0xc1, code r]) := by
  cases r <;> exact ⟨rfl, by intro h; first | rfl | exact absurd rfl h⟩

/-- Claim C3, counterexample: decoding the single-byte payloads `[0x0c]`
and `[0x0d]` returns one and the same error value, the constant custom
message, so the decoding error returned for an unassigned code does not
carry the offending byte. -/
theorem claim3_counterexample :
    decode [0x0c] = decode [0x0d] ∧
    decode [0x0c] = Except.error (DecodeError.Custom "unknown disconnect reason") := by
  constructor
  · rfl
  · rfl

/-- Claim C3, amended: whenever the decoder extracts a candidate byte that
matches no assigned reason code, it returns the constant custom
unknown-reason error, which does not carry the byte; the offending byte is
carried only by the intermediate `UnknownDisconnectReason` value produced
by `tryFrom`. This covers both extraction paths: a one-byte payload and a
payload of length 2 to 4 decoded from its final byte. In every such case
the extracted candidate is the single-byte decoding of the final byte: a
final byte of 0x00 in the multi-byte path extracts the assigned code 0x00
and so never falls under the hypothesis. In particular decoding `[0x0c]`
yields the custom error while `tryFrom 0x0c` carries the value 0x0c. -/
theorem claim3_amended (buf : List Nat) (h1 : 1 ≤ buf.length) (h4 : buf.length ≤ 4)
    (hfail : (tryFrom (rlpDecodeU8 (buf.getLastD 0))).toOption = none) :
    decode buf = Except.error (DecodeError.Custom "unknown disconnect reason") ∧
    tryFrom (rlpDecodeU8 (buf.getLastD 0)) =
      Except.error ⟨rlpDecodeU8 (buf.getLastD 0)⟩ := by
  cases h : tryFrom (rlpDecodeU8 (buf.getLastD 0)) with
  | ok r => rw [h] at hfail; simp [Except.toOption] at hfail
  | error e =>
    have he : e = ⟨rlpDecodeU8 (buf.getLastD 0)⟩ := tryFrom_error_value _ _ h
    have hres : resolve (rlpDecodeU8 (buf.getLastD 0)) =
        Except.error (DecodeError.Custom "unknown disconnect reason") := by
      unfold resolve
      rw [h]
    refine ⟨?_, by rw [he]⟩
    by_cases hlen : buf.length = 1
    · have hhead : buf.headD 0 = buf.getLastD 0 := by
        cases buf with
        | nil => rfl
        | cons a l =>
          cases l with
          | nil => rfl
          | cons b m => simp at hlen
      have hne : ¬ buf.isEmpty = true := by
        cases buf with
        | nil => simp at hlen
        | cons a l => simp
      unfold decode
      rw [if_neg hne, if_pos hlen, hhead, hres]
    · have h2 : 2 ≤ buf.length := by omega
      have hz : ¬ buf.getLastD 0 = 0x00 := by
        intro hz
        rw [hz] at h
        simp [rlpDecodeU8, tryFrom] at h
      rw [decode_mid_eq buf h2 h4, if_neg hz, hres]

/-- Witness for C3 at the concrete one-byte payload holding the unassigned
code 0x0c. -/
theorem claim3_witness :
    decode [0x0c] = Except.error (DecodeError.Custom "unknown disconnect reason") ∧
    tryFrom (rlpDecodeU8 0x0c) = Except.error ⟨rlpDecodeU8 0x0c⟩ :=
  claim3_amended [0x0c] (by decide) (by decide) (by decide)

/-- Claim C4: for every input byte slice the decoder returns either a
reason or one of exactly three typed errors: `InputTooShort`, the custom
invalid-length error, or the custom unknown-reason error; being a total
function into this result type, no input produces any other error value
or a crash. -/
theorem claim4_error_taxonomy (buf : List Nat) :
    (∃ r, decode buf = Except.ok r) ∨
    decode buf = Except.error DecodeError.InputTooShort ∨
    decode buf = Except.error (DecodeError.Custom "invalid disconnect reason length") ∨
    decode buf = Except.error (DecodeError.Custom "unknown disconnect reason") := by
  unfold decode
  split_ifs with h1 h2 h3 h4
  · exact Or.inr (Or.inl rfl)
  · rcases resolve_cases (rlpDecodeU8 (buf.headD 0)) with ⟨r, hr⟩ | hr
    · exact Or.inl ⟨r, hr⟩
    · exact Or.inr (Or.inr (Or.inr hr))
  · rcases resolve_cases (code DisconnectReason.DisconnectRequested) with ⟨r, hr⟩ | hr
    · exact Or.inl ⟨r, hr⟩
    · exact Or.inr (Or.inr (Or.inr hr))
  · rcases resolve_cases (rlpDecodeU8 (buf.getLastD 0)) with ⟨r, hr⟩ | hr
    · exact Or.inl ⟨r, hr⟩
    · exact Or.inr (Or.inr (Or.inr hr))
  · exact Or.inr (Or.inr (Or.inl rfl))

/-- Claim C5: for every variant the encoder output has length exactly 4
and the length-reporting function returns the constant 4, so reported
length always equals actual output length. -/
theorem claim5_fixed_length (r : DisconnectReason) :
    (encode r).length = 4 ∧ length r = 4 := by
  cases r <;> exact ⟨rfl, rfl⟩

/-- Claim C6: for every byte, `tryFrom` succeeds exactly on the 13
assigned codes 0x00..0x0b and 0x10; every other byte, 0x0c..0x0f
included, yields `UnknownDisconnectReason` wrapping exactly that byte,
never a default variant. -/
theorem claim6_tryFrom_total (b : Nat) (hb : b < 256) :
    ((∃ r, tryFrom b = Except.ok r) ↔ (b ≤ 0x0b ∨ b = 0x10)) ∧
    (¬ (b ≤ 0x0b ∨ b = 0x10) → tryFrom b = Except.error ⟨b⟩) := by
  constructor
  · constructor
    · rintro ⟨r, hr⟩
      by_contra hmem
      push_neg at hmem
      rw [tryFrom_unassigned b (by omega) hmem.2] at hr
      exact Except.noConfusion hr
    · intro hmem
      rcases hmem with h | h
      · interval_cases b <;> exact ⟨_, rfl⟩
      · subst h
        exact ⟨_, rfl⟩
  · intro hmem
    push_neg at hmem
    exact tryFrom_unassigned b (by omega) hmem.2

/-- Witness for C6 at the concrete unassigned byte 0x0c. -/
theorem claim6_witness :
    ((∃ r, tryFrom 0x0c = Except.ok r) ↔ ((0x0c : Nat) ≤ 0x0b ∨ (0x0c : Nat) = 0x10)) ∧
    (¬ ((0x0c : Nat) ≤ 0x0b ∨ (0x0c : Nat) = 0x10) →
      tryFrom 0x0c = Except.error ⟨0x0c⟩) :=
  claim6_tryFrom_total 0x0c (by decide)

/-- Claim C7: decoding the empty slice yields `InputTooShort` and decoding
any payload of length strictly greater than 4 yields the custom
invalid-length error; in both cases no reason is produced. -/
theorem claim7_length_errors :
    decode [] = Except.error DecodeError.InputTooShort ∧
    ∀ buf : List Nat, 4 < buf.length →
      decode buf = Except.error (DecodeError.Custom "invalid disconnect reason length") := by
  refine ⟨rfl, fun buf h => ?_⟩
  have hne : buf.isEmpty = false := by
    cases buf with
    | nil => simp at h
    | cons a l => rfl
  have h1 : ¬ buf.length = 1 := by omega
  have h4 : ¬ buf.length ≤ 4 := by omega
  simp [decode, hne, h1, h4]

/-- Witness for C7 at a concrete 5-byte payload. -/
theorem claim7_witness :
    decode [1, 2, 3, 4, 5] = Except.error (DecodeError.Custom "invalid disconnect reason length") :=
  claim7_length_errors.2 [1, 2, 3, 4, 5] (by decide)

/-- Claim C8: for every payload of length 2, 3 or 4 whose final byte is
exactly 0x00, the decoder returns `DisconnectRequested` directly through
the literal-zero branch. -/
theorem claim8_literal_zero (buf : List Nat) (h2 : 2 ≤ buf.length) (h4 : buf.length ≤ 4)
    (hz : buf.getLastD 0 = 0x00) :
    decode buf = Except.ok DisconnectReason.DisconnectRequested := by
  rw [decode_mid_eq buf h2 h4, if_pos hz]
  rfl

/-- Witness for C8 at the concrete payload `[0x00, 0x00]`. -/
theorem claim8_witness :
    decode [0x00, 0x00] = Except.ok DisconnectReason.DisconnectRequested :=
  claim8_literal_zero [0x00, 0x00] (by decide) (by decide) (by decide)

/-- Claim C9: each of the historical payload shapes 80, 01, 02, c180,
c101, 0080, 0001, 0204c180 and 0204c101 decodes without error to a
disconnect-reason value. -/
theorem claim9_historical_tolerance :
    decode [0x80] = Except.ok DisconnectReason.DisconnectRequested ∧
    decode [0x01] = Except.ok DisconnectReason.TcpSubsystemError ∧
    decode [0x02] = Except.ok DisconnectReason.ProtocolBreach ∧
    decode [0xc1, 0x80] = Except.ok DisconnectReason.DisconnectRequested ∧
    decode [0xc1, 0x01] = Except.ok DisconnectReason.TcpSubsystemError ∧
    decode [0x00, 0x80] = Except.ok DisconnectReason.DisconnectRequested ∧
    decode [0x00, 0x01] = Except.ok DisconnectReason.TcpSubsystemError ∧
    decode [0x02, 0x04, 0xc1, 0x80] = Except.ok DisconnectReason.DisconnectRequested ∧
    decode [0x02, 0x04, 0xc1, 0x01] = Except.ok DisconnectReason.TcpSubsystemError :=
  ⟨rfl, rfl, rfl, rfl, rfl, rfl, rfl, rfl, rfl⟩

/-- Claim C10: any two payloads of length 2 to 4 with the same final byte
decode identically; the bytes preceding the final byte are never
inspected. -/
theorem claim10_prefix_independence (buf1 buf2 : List Nat)
    (h12 : 2 ≤ buf1.length) (h14 : buf1.length ≤ 4)
    (h22 : 2 ≤ buf2.length) (h24 : buf2.length ≤ 4)
    (hlast : buf1.getLastD 0 = buf2.getLastD 0) :
    decode buf1 = decode buf2 := by
  rw [decode_mid_eq buf1 h12 h14, decode_mid_eq buf2 h22 h24, hlast]

/-- Witness for C10: a 3-byte payload with garbage prefix bytes and a
2-byte payload sharing the final byte decode identically. -/
theorem claim10_witness :
    decode [0xde, 0xad, 0x01] = decode [0xff, 0x01] :=
  claim10_prefix_independence [0xde, 0xad, 0x01] [0xff, 0x01]
    (by decide) (by decide) (by decide) (by decide) rfl

end Disconnect
